import Mathlib

/-!
Verification of the bag-database file-processing pipeline
(`process_bags.py`) against its design specification.

The Python source is embedded shallowly: pure computations become Lean
functions over explicit data (`BagFile` models the observable attributes of
a rosbag together with the behaviour of the external collaborators for that
file), machine floats carrying epoch times and depths are modelled as `ℚ`,
and code that can raise returns `Except`.
-/

namespace BagDB

/-- Python `str.split(sep)` for a single-character separator: splits on every
occurrence, keeping empty segments (`"a__b" -> ["a", "", "b"]`, `"" -> [""]`). -/
def splitCharAux (sep : Char) : List Char → List Char → List String
  | [], cur => [String.mk cur.reverse]
  | c :: cs, cur =>
    if c = sep then String.mk cur.reverse :: splitCharAux sep cs []
    else splitCharAux sep cs (c :: cur)

/-- Split a string on a single-character separator, Python `split` style. -/
def splitChar (sep : Char) (s : String) : List String :=
  splitCharAux sep s.data []

/-- Python `str.rstrip`: drop trailing characters satisfying `p`. -/
def rstripAll (p : Char → Bool) (s : String) : String :=
  String.mk (s.data.reverse.dropWhile p).reverse

/-- Python slicing `s[:n]` (first `n` code points). -/
def strTake (s : String) (n : Nat) : String :=
  String.mk (s.data.take n)

/-- Known names of the remus vehicle type (from the `vehicle_info` dict). -/
def remusNames : List String := ["shadow", "casper", "bullwinkle"]

/-- Known names of the buoy vehicle type (from the `vehicle_info` dict). -/
def buoyNames : List String := ["sugar", "skipper", "shrew"]

/-- The hard-coded vehicle catalog `vehicle_info`:
`vehicle_type -> (unique_message_type, known names)`, in dict insertion order. -/
def vehicle_info : List (String × String × List String) :=
  [("remus", "ros_remus/Status", remusNames),
   ("buoy", "ros_gwb/ScheduleStatus", buoyNames)]

/-- Python dict key lookup `vehicle_info[t]`, as an `Option`. -/
def vehicleLookup (t : String) : Option (String × List String) :=
  (vehicle_info.find? (fun vi => vi.1 == t)).map (fun vi => vi.2)

/-- The result of `time.localtime`: a `struct_time`, whose iteration order is
`(tm_year, tm_mon, tm_mday, tm_hour, tm_min, tm_sec, tm_wday, tm_yday, tm_isdst)`. -/
structure StructTime where
  tm_year : Int
  tm_mon : Int
  tm_mday : Int
  tm_hour : Int
  tm_min : Int
  tm_sec : Int
  tm_wday : Int
  tm_yday : Int
  tm_isdst : Int
deriving DecidableEq

/-- The nine fields of a `struct_time` in iteration order. -/
def structFields (t : StructTime) : List Int :=
  [t.tm_year, t.tm_mon, t.tm_mday, t.tm_hour, t.tm_min, t.tm_sec,
   t.tm_wday, t.tm_yday, t.tm_isdst]

/-- The loop body of `identify_date`: append `f"{val}-"` for each enumerated
field, breaking once the field index 6 has been appended. -/
def dateLoop : List (Nat × Int) → String → String
  | [], date => date
  | (i, v) :: rest, date =>
    let date2 := date ++ toString v ++ "-"
    if i = 6 then date2 else dateLoop rest date2

/-- `identify_date`: format the local-clock breakdown of the bag's start time,
then `rstrip("-")`.  Takes the `struct_time` produced by `time.localtime` on
the bag's start time. -/
def identify_date (t : StructTime) : String :=
  rstripAll (fun c => c = '-') (dateLoop (structFields t).enum "")

/-- `is_rename_necessary`: split the filename on `_`; the name is valid
(returns `false`) iff there are 3 or 4 components, component 0 is a catalog
vehicle type and component 1 is one of that type's known names. -/
def is_rename_necessary (filename : String) : Bool :=
  let components := splitChar '_' filename
  if 2 < components.length && components.length < 5 then
    match vehicleLookup (components.getD 0 "") with
    | some vi => !(vi.2.contains (components.getD 1 ""))
    | none => true
  else true

/-- One status sample on the `/status` topic of a remus bag. -/
structure StatusMsg where
  in_mission : Bool
  depth : ℚ
  mission_mode : Int
deriving DecidableEq

/-- Behaviour of the external HTTP transport (`prep_and_post`) for one file:
either the call raises, or it completes and yields a status-code string. -/
inductive PostOutcome
  | raises
  | status (code : String)
deriving DecidableEq

/-- The observable state of one candidate bag file, together with the
behaviour of the external collaborators for it: the path components of its
location (last component = filename), the `time.localtime` breakdown of its
start time, its end time (epoch seconds), the message types present in it,
its `/status` samples, and the transport outcome its upload would have. -/
structure BagFile where
  parts : List String
  startLocal : StructTime
  endTime : ℚ
  msg_types : List String
  statusMsgs : List StatusMsg
  postResult : PostOutcome
deriving DecidableEq

/-- `bagpath.name`, and also `bagpath.parts[-1]`: the last path component. -/
def bagName (b : BagFile) : String := b.parts.getLastD ""

/-- Inner loop of the directory strategy of `identify_source`: scan the
catalog for a type owning this path component as a known name; a later match
overwrites an earlier one. -/
def dirStep (acc : String × Nat) (p : String) : String × Nat :=
  vehicle_info.foldl
    (fun acc2 vi => if vi.2.2.contains p then (vi.1 ++ "_" ++ p, 1) else acc2) acc

/-- Content strategy of `identify_source`: scan the catalog for a type whose
unique message type occurs in the bag; a later match overwrites an earlier one. -/
def contentScan (msgs : List String) (acc : String × Nat) : String × Nat :=
  vehicle_info.foldl
    (fun acc2 vi => if msgs.contains vi.2.1 then (vi.1 ++ "_unknownname", 2) else acc2) acc

/-- `identify_source`: directory strategy over all path components, then (only
if that failed) the content strategy, then the failure fallback.  Returns
`(source, status)` with status 0 = failure, 1 = directory, 2 = contents. -/
def identify_source (b : BagFile) : String × Nat :=
  let acc := b.parts.foldl dirStep ("", 0)
  let acc2 := if acc.2 == 0 then contentScan b.msg_types acc else acc
  if acc2.2 == 0 then ("unknowntype_unknownname", 0) else acc2

/-- `standard_rename`: if the current name is invalid, build
`f"{source}_{identify_date(...)}.bag"` and decide upload eligibility from the
identification status (0 and 2 are not eligible); otherwise keep the name and
report eligible.  Returns `(to_upload, resulting filename)`. -/
def standard_rename (b : BagFile) : Bool × String :=
  if is_rename_necessary (bagName b) then
    let sr := identify_source b
    let built_name := sr.1 ++ "_" ++ identify_date b.startLocal ++ ".bag"
    let to_upload :=
      if sr.2 == 0 then false
      else if sr.2 == 1 then true
      else if sr.2 == 2 then false
      else true
    (to_upload, built_name)
  else (true, bagName b)

/-- Round-half-to-even on `ℚ` (the rounding of Python's builtin `round`). -/
def roundHalfEven (q : ℚ) : Int :=
  if q - (⌊q⌋ : ℚ) < 1/2 then ⌊q⌋
  else if (1 : ℚ)/2 < q - (⌊q⌋ : ℚ) then ⌊q⌋ + 1
  else if 2 ∣ ⌊q⌋ then ⌊q⌋ else ⌊q⌋ + 1

/-- Python `round(x, 2)`: round to two decimal places, ties to even. -/
def pyRound2 (q : ℚ) : ℚ := (roundHalfEven (q * 100) : ℚ) / 100

/-- Python `max` over a list: raises `ValueError` on an empty sequence. -/
def pyMax : List ℚ → Except String ℚ
  | [] => Except.error "max() arg is an empty sequence"
  | x :: xs => Except.ok (xs.foldl max x)

/-- A value stored in the tag dictionary built by `generate_tags`. -/
inductive TagVal
  | str (s : String)
  | boolv (b : Bool)
  | ratv (q : ℚ)
  | modes (l : List Int)
deriving DecidableEq

/-- The universally possessed tags, in dict insertion order: `vehicle` and
`name` from the first two filename segments, `date/time` from the start-date
derivation, `year` as the first four characters of `date/time`. -/
def universalTags (vehicle name dt : String) : List (String × TagVal) :=
  [("vehicle", TagVal.str vehicle), ("name", TagVal.str name),
   ("date/time", TagVal.str dt), ("year", TagVal.str (strTake dt 4))]

/-- The remus-specific tags: `mission state` from the first status sample (if
any), `max depth` as the `max` of the per-sample rounded depths (raises on an
empty channel), and `mission modes` from all samples. -/
def remusTags (msgs : List StatusMsg) : Except String (List (String × TagVal)) :=
  match pyMax (msgs.map (fun m => pyRound2 m.depth)) with
  | Except.error e => Except.error e
  | Except.ok mx =>
    Except.ok ((match msgs.head? with
        | some m => [("mission state", TagVal.boolv m.in_mission)]
        | none => []) ++
      [("max depth", TagVal.ratv mx),
       ("mission modes", TagVal.modes (msgs.map (fun m => m.mission_mode)))])

/-- `generate_tags`: universal tags from the filename and start date, plus the
remus-specific tags scanned from the `/status` channel.  Indexing the second
filename segment raises if absent, and `max` of an empty depth list raises. -/
def generate_tags (bagname : String) (b : BagFile) : Except String (List (String × TagVal)) :=
  match (splitChar '_' bagname).get? 1 with
  | none => Except.error "IndexError"
  | some name =>
    if (splitChar '_' bagname).headD "" == "remus" then
      match remusTags b.statusMsgs with
      | Except.error e => Except.error e
      | Except.ok extra =>
        Except.ok (universalTags ((splitChar '_' bagname).headD "") name
          (identify_date b.startLocal) ++ extra)
    else
      Except.ok (universalTags ((splitChar '_' bagname).headD "") name
        (identify_date b.startLocal))

/-- The textual form of a tag value as rendered by the f-string in
`tag_this_bag` (models Python `str` on the stored values). -/
def tagText : TagVal → String
  | TagVal.str s => s
  | TagVal.boolv v => if v then "True" else "False"
  | TagVal.ratv q => toString q
  | TagVal.modes l => toString l

/-- The message data built by `tag_this_bag`: one `key:value` line per tag,
newline-terminated, with trailing whitespace stripped at the end. -/
def tagData (tags : List (String × TagVal)) : String :=
  rstripAll Char.isWhitespace
    (tags.foldl (fun acc kv => acc ++ kv.1 ++ ":" ++ tagText kv.2 ++ "\n") "")

/-- The single record `tag_this_bag` appends to the bag: topic `/metadata`,
the formatted tag data, and the timestamp `Time(int(msg_sec), msg_nsec)`
where `msg_sec, msg_nsec = divmod(bag.get_end_time(), 1)`. -/
structure WrittenRecord where
  topic : String
  data : String
  t_secs : Int
  t_nsecs : ℚ
deriving DecidableEq

/-- `tag_this_bag` as a function of the bag's end time and the tag dict. -/
def tag_this_bag (endTime : ℚ) (tags : List (String × TagVal)) : WrittenRecord :=
  { topic := "/metadata"
    data := tagData tags
    t_secs := ⌊endTime⌋
    t_nsecs := endTime - (⌊endTime⌋ : ℚ) }

/-- The instant (in epoch seconds) a `genpy.Time(secs, nsecs)` value denotes:
`secs` seconds plus `nsecs` nanoseconds. -/
def timeValue (r : WrittenRecord) : ℚ := (r.t_secs : ℚ) + r.t_nsecs / 1000000000

/-- What happened to one bag during a run of the upload driver. -/
structure Step where
  processed : Bool
  renamed : Bool
  storeOpened : Bool
  storeClosed : Bool
  tagPublished : Bool
  uploadAttempted : Bool
  moved : Bool
deriving DecidableEq

/-- The per-bag body of the loop in `process_bags`: the already-uploaded
guard compares `bagpath.parts[-1]` with `"uploaded"`; then rename/validation;
then tagging inside the try-except (an exception closes the bag and skips
it); then the transport post, whose own exception is not caught; a `"200"`
status moves the file into the completed subdirectory. -/
def processOne (b : BagFile) : Except Unit Step :=
  if bagName b ≠ "uploaded" then
    if (standard_rename b).1 then
      match generate_tags (standard_rename b).2 b with
      | Except.error _ =>
        Except.ok ⟨true, is_rename_necessary (bagName b), true, true, false, false, false⟩
      | Except.ok _tags =>
        match b.postResult with
        | PostOutcome.raises => Except.error ()
        | PostOutcome.status code =>
          if code == "200" then
            Except.ok ⟨true, is_rename_necessary (bagName b), true, true, true, true, true⟩
          else
            Except.ok ⟨true, is_rename_necessary (bagName b), true, true, true, true, false⟩
    else Except.ok ⟨true, is_rename_necessary (bagName b), false, false, false, false, false⟩
  else Except.ok ⟨false, false, false, false, false, false, false⟩

/-- The sequential loop over the discovered bags: an uncaught exception in
one iteration aborts the whole batch. -/
def runBags : List BagFile → Except Unit (List Step)
  | [] => Except.ok []
  | b :: rest =>
    match processOne b with
    | Except.error e => Except.error e
    | Except.ok s =>
      match runBags rest with
      | Except.error e => Except.error e
      | Except.ok l => Except.ok (s :: l)

/-- `process_bags`: fetch the CSRF token (its failure aborts before anything
is processed), then run the loop over every discovered bag. -/
def process_bags (csrf : Except Unit String) (bags : List BagFile) :
    Except Unit (List Step) :=
  match csrf with
  | Except.error e => Except.error e
  | Except.ok _ => runBags bags

/-- Whether a path component is a known name of some catalog vehicle type. -/
def knownName (p : String) : Bool :=
  vehicle_info.any (fun vi => vi.2.2.contains p)

/-- The source pair the directory strategy produces for a matching path
component (the catalog entry listed last wins, as in the Python loop). -/
def sourceFor (p : String) : String × Nat :=
  if buoyNames.contains p then ("buoy_" ++ p, 1) else ("remus_" ++ p, 1)

/-- A bag of no particular vehicle, used to instantiate universally
quantified theorems: its filename is invalid and nothing identifies it. -/
def c2FailBag : BagFile :=
  ⟨["home", "x.bag"], ⟨2020, 1, 1, 0, 0, 0, 2, 1, 0⟩, 1, [], [], PostOutcome.status "200"⟩

/-- A bag sitting under a directory named after a remus vehicle. -/
def c2DirBag : BagFile :=
  ⟨["shadow", "x.bag"], ⟨2020, 1, 1, 0, 0, 0, 2, 1, 0⟩, 1, [], [], PostOutcome.status "200"⟩

/-- A bag identifiable only by its buoy content signal. -/
def c2ContentBag : BagFile :=
  ⟨["home", "x.bag"], ⟨2020, 1, 1, 0, 0, 0, 2, 1, 0⟩, 1, ["ros_gwb/ScheduleStatus"], [],
   PostOutcome.status "200"⟩

/-- A bag whose filename is already canonical. -/
def c2ValidBag : BagFile :=
  ⟨["home", "remus_casper_m.bag"], ⟨2020, 1, 1, 0, 0, 0, 2, 1, 0⟩, 1, [], [],
   PostOutcome.status "200"⟩

/-- A bag under a remus-named directory that also carries a buoy content
signal, to exhibit the precedence of the directory strategy. -/
def c5DirBag : BagFile :=
  ⟨["data", "shadow", "y.bag"], ⟨2020, 1, 1, 0, 0, 0, 2, 1, 0⟩, 1,
   ["ros_gwb/ScheduleStatus"], [], PostOutcome.status "200"⟩

/-- A bag identifiable only through its buoy content signal. -/
def c5ContentBag : BagFile :=
  ⟨["data", "y.bag"], ⟨2020, 1, 1, 0, 0, 0, 2, 1, 0⟩, 1,
   ["std_msgs/String", "ros_gwb/ScheduleStatus"], [], PostOutcome.status "200"⟩

/-- A bag that neither strategy of the source identifier can resolve. -/
def c5FailBag : BagFile :=
  ⟨["data", "y.bag"], ⟨2020, 1, 1, 0, 0, 0, 2, 1, 0⟩, 1, ["std_msgs/String"], [],
   PostOutcome.status "200"⟩

/-- An archived bag as a second recursive run discovers it: it resides in the
completed subdirectory `uploaded`, its name is canonical, its contents tag
cleanly and its upload would succeed again. -/
def c1Bag : BagFile :=
  ⟨["uploaded", "remus_shadow_msn_2020.bag"], ⟨2020, 1, 1, 0, 0, 0, 2, 1, 0⟩, 100, [],
   [⟨true, 3, 0⟩], PostOutcome.status "200"⟩

/-- The `struct_time` of the epoch instant in UTC:
1970-01-01 00:00:00, a Thursday (`tm_wday = 3`), day 1 of the year. -/
def c4Struct : StructTime := ⟨1970, 1, 1, 0, 0, 0, 3, 1, 0⟩

/-- The tag dictionary used to exhibit the written metadata record. -/
def c8Tags : List (String × TagVal) :=
  [("vehicle", TagVal.str "remus"), ("name", TagVal.str "shadow")]

/-- A validly named remus bag whose transport upload raises an exception. -/
def c3BadBag : BagFile :=
  ⟨["home", "remus_shadow_msn_a.bag"], ⟨2020, 1, 1, 0, 0, 0, 2, 1, 0⟩, 1, [],
   [⟨true, 1, 0⟩], PostOutcome.raises⟩

/-- A validly named remus bag that would tag and upload cleanly. -/
def c3GoodBag : BagFile :=
  ⟨["home", "remus_casper_msn_b.bag"], ⟨2020, 1, 1, 0, 0, 0, 2, 1, 0⟩, 1, [],
   [⟨false, 2, 1⟩], PostOutcome.status "200"⟩

/-- A validly named remus bag whose tagging raises (no status samples). -/
def c3TagErrBag : BagFile :=
  ⟨["home", "remus_shadow_c.bag"], ⟨2020, 1, 1, 0, 0, 0, 2, 1, 0⟩, 1, [], [],
   PostOutcome.status "200"⟩

/-- A validly named remus bag with an empty status channel (for the tagging
failure path of the driver). -/
def c7Bag : BagFile :=
  ⟨["home", "remus_casper_d.bag"], ⟨2020, 1, 1, 0, 0, 0, 2, 1, 0⟩, 1, [], [],
   PostOutcome.status "200"⟩

/-- A validly named remus bag with two status samples of distinct depths. -/
def c9Bag : BagFile :=
  ⟨["home", "remus_shadow_t.bag"], ⟨2024, 5, 6, 7, 8, 9, 1, 127, 0⟩, 1, [],
   [⟨true, 5/4, 7⟩, ⟨true, 1/2, 7⟩], PostOutcome.status "200"⟩

/-- A validly named remus bag with zero samples on the status channel. -/
def c10Bag : BagFile :=
  ⟨["home", "remus_bullwinkle_e.bag"], ⟨2020, 1, 1, 0, 0, 0, 2, 1, 0⟩, 1, [], [],
   PostOutcome.status "200"⟩

/-- The tag dictionary `generate_tags` produces for `c9Bag`. -/
def c9TagList : List (String × TagVal) :=
  universalTags "remus" "shadow" "2024-5-6-7-8-9-1" ++
  [("mission state", TagVal.boolv true),
   ("max depth", TagVal.ratv (max (pyRound2 (5/4)) (pyRound2 (1/2)))),
   ("mission modes", TagVal.modes [7, 7])]

theorem dirStep_eq (acc : String × Nat) (p : String) :
    dirStep acc p = if knownName p then sourceFor p else acc := by
  unfold dirStep knownName sourceFor vehicle_info
  by_cases hb : p ∈ buoyNames <;> by_cases hr : p ∈ remusNames <;>
    simp [hb, hr]

theorem foldl_dirStep_no_match (l : List String) (acc : String × Nat)
    (h : l.any knownName = false) : l.foldl dirStep acc = acc := by
  induction l generalizing acc with
  | nil => rfl
  | cons p t ih =>
    simp only [List.any_cons, Bool.or_eq_false_iff] at h
    rw [List.foldl_cons, dirStep_eq, if_neg (by simp [h.1]), ih acc h.2]

theorem foldl_dirStep_match (l : List String) (acc : String × Nat)
    (h : l.any knownName = true) :
    ∃ p, p ∈ l ∧ knownName p = true ∧ l.foldl dirStep acc = sourceFor p := by
  induction l generalizing acc with
  | nil => simp at h
  | cons p t ih =>
    cases ht : t.any knownName with
    | true =>
      obtain ⟨q, hq, hkq, heq⟩ := ih (dirStep acc p) ht
      exact ⟨q, List.mem_cons_of_mem p hq, hkq, by rw [List.foldl_cons]; exact heq⟩
    | false =>
      have hp : knownName p = true := by
        simp only [List.any_cons, ht, Bool.or_false] at h
        exact h
      refine ⟨p, List.mem_cons_self p t, hp, ?_⟩
      rw [List.foldl_cons, foldl_dirStep_no_match t _ ht, dirStep_eq, if_pos (by simp [hp])]

theorem sourceFor_spec (p : String) (h : knownName p = true) :
    ∃ vi, vi ∈ vehicle_info ∧ vi.2.2.contains p = true ∧
      sourceFor p = (vi.1 ++ "_" ++ p, 1) := by
  unfold sourceFor
  cases hb : buoyNames.contains p with
  | true =>
    exact ⟨("buoy", "ros_gwb/ScheduleStatus", buoyNames), by simp [vehicle_info], hb,
      by simp [hb]⟩
  | false =>
    have hr : remusNames.contains p = true := by
      unfold knownName vehicle_info at h
      simp only [List.any_cons, List.any_nil, Bool.or_false, hb] at h
      simpa using h
    exact ⟨("remus", "ros_remus/Status", remusNames), by simp [vehicle_info], hr,
      by simp [hb]⟩

theorem contentScan_eq (msgs : List String) (acc : String × Nat) :
    contentScan msgs acc =
      if msgs.contains "ros_gwb/ScheduleStatus" then ("buoy_unknownname", 2)
      else if msgs.contains "ros_remus/Status" then ("remus_unknownname", 2)
      else acc := by
  unfold contentScan vehicle_info
  by_cases hb : "ros_gwb/ScheduleStatus" ∈ msgs <;>
    by_cases hr : "ros_remus/Status" ∈ msgs <;> simp [hb, hr]

theorem floor_le_roundHalfEven (q : ℚ) : ⌊q⌋ ≤ roundHalfEven q := by
  unfold roundHalfEven
  split_ifs <;> omega

theorem roundHalfEven_le_floor_add_one (q : ℚ) : roundHalfEven q ≤ ⌊q⌋ + 1 := by
  unfold roundHalfEven
  split_ifs <;> omega

theorem roundHalfEven_mono : Monotone roundHalfEven := by
  intro p q h
  rcases lt_or_eq_of_le (Int.floor_le_floor h) with hlt | heq
  · calc roundHalfEven p ≤ ⌊p⌋ + 1 := roundHalfEven_le_floor_add_one p
      _ ≤ ⌊q⌋ := by omega
      _ ≤ roundHalfEven q := floor_le_roundHalfEven q
  · unfold roundHalfEven
    rw [← heq]
    split_ifs <;> first
      | omega
      | (exfalso; linarith)

theorem pyRound2_mono : Monotone pyRound2 := by
  intro p q h
  unfold pyRound2
  have h1 : roundHalfEven (p * 100) ≤ roundHalfEven (q * 100) :=
    roundHalfEven_mono (by linarith)
  have h2 : ((roundHalfEven (p * 100) : ℚ)) ≤ (roundHalfEven (q * 100) : ℚ) := by
    exact_mod_cast h1
  exact div_le_div_of_nonneg_right h2 (by norm_num)

theorem foldl_max_map_pyRound2 (l : List ℚ) (a : ℚ) :
    (l.map pyRound2).foldl max (pyRound2 a) = pyRound2 (l.foldl max a) := by
  induction l generalizing a with
  | nil => rfl
  | cons x t ih =>
    simp only [List.map_cons, List.foldl_cons]
    rw [← pyRound2_mono.map_max]
    exact ih (max a x)

theorem runBags_cons_ok (b : BagFile) (rest : List BagFile) (s : Step)
    (h : processOne b = Except.ok s) :
    runBags (b :: rest) = (runBags rest).map (fun l => s :: l) := by
  simp only [runBags, h]
  cases hr : runBags rest <;> rfl

theorem runBags_cons_err (b : BagFile) (rest : List BagFile)
    (h : processOne b = Except.error ()) : runBags (b :: rest) = Except.error () := by
  simp only [runBags, h]

theorem processOne_tagError (b : BagFile) (e : String)
    (hguard : bagName b ≠ "uploaded")
    (helig : (standard_rename b).1 = true)
    (htag : generate_tags (standard_rename b).2 b = Except.error e) :
    processOne b =
      Except.ok ⟨true, is_rename_necessary (bagName b), true, true, false, false, false⟩ := by
  unfold processOne
  rw [if_pos hguard, if_pos (by simp [helig]), htag]

theorem processOne_postRaises (b : BagFile) (tags : List (String × TagVal))
    (hguard : bagName b ≠ "uploaded")
    (helig : (standard_rename b).1 = true)
    (htag : generate_tags (standard_rename b).2 b = Except.ok tags)
    (hpost : b.postResult = PostOutcome.raises) :
    processOne b = Except.error () := by
  unfold processOne
  rw [if_pos hguard, if_pos (by simp [helig]), htag, hpost]

/-- C1: refuted by the code.  The DISCOVERED-stage guard compares the LAST
path component (the filename, which always ends in `.bag`) against the
completed-subdirectory name, so a bag residing in `uploaded/` left there by a
fully archiving first run is not skipped on the second run: it is processed,
tagged again, uploaded again and moved again (`processed`, `tagPublished`,
`uploadAttempted` and `moved` are all true in the resulting step), while the
claim requires the second run to perform zero further tags or uploads. -/
theorem c1_completed_subdir_bag_is_reprocessed :
    c1Bag.parts.getD 0 "" = "uploaded" ∧
    bagName c1Bag ≠ "uploaded" ∧
    process_bags (Except.ok "token") [c1Bag] =
      Except.ok [⟨true, false, true, true, true, true, true⟩] :=
  ⟨rfl, by decide, rfl⟩

/-- C4: refuted by the code.  The formatting loop of `identify_date` breaks
only after appending the field of index 6 of the `struct_time`, which is
`tm_wday`, so the returned token has seven dash-separated fields — the six
calendar fields followed by the weekday — instead of the six fields ending at
seconds that the claim requires. -/
theorem c4_identify_date_emits_weekday_field :
    identify_date c4Struct = "1970-1-1-0-0-0-3" ∧
    (splitChar '-' (identify_date c4Struct)).length = 7 :=
  ⟨rfl, rfl⟩

/-- C8: refuted by the code on the timestamp.  The record data is indeed the
newline-separated `key:value` rendering with trailing whitespace stripped,
but `divmod(end_time, 1)` yields the fractional second, which is passed
unscaled as the nanoseconds argument of the timestamp: for end time 10.5 s
the record is stamped at 10 s plus 0.5 nanoseconds, not at 10.5 s. -/
theorem c8_metadata_record_timestamp_below_end_time :
    tag_this_bag (21/2) c8Tags = ⟨"/metadata", "vehicle:remus\nname:shadow", 10, 1/2⟩ ∧
    timeValue (tag_this_bag (21/2) c8Tags) ≠ 21/2 := by
  constructor
  · unfold tag_this_bag
    simp only [WrittenRecord.mk.injEq]
    exact ⟨trivial, rfl, by norm_num, by norm_num⟩
  · norm_num [timeValue, tag_this_bag]

/-- C2: for a recording that needs renaming, `standard_rename` reports it
eligible for upload exactly when the identification status is 1 (DIRECTORY);
statuses 0 (FAILED) and 2 (CONTENT) yield not-eligible; and a recording whose
name is already valid is treated as eligible. -/
theorem c2_upload_eligibility (b : BagFile) :
    (is_rename_necessary (bagName b) = true →
      ((identify_source b).2 = 0 → (standard_rename b).1 = false) ∧
      ((identify_source b).2 = 1 → (standard_rename b).1 = true) ∧
      ((identify_source b).2 = 2 → (standard_rename b).1 = false)) ∧
    (is_rename_necessary (bagName b) = false → (standard_rename b).1 = true) := by
  constructor
  · intro hr
    refine ⟨?_, ?_, ?_⟩ <;> intro hs <;> simp [standard_rename, hr, hs]
  · intro hr
    simp [standard_rename, hr]

/-- Witness for C2: the four eligibility verdicts at concrete bags covering
statuses 0, 1 and 2 and the already-valid-name case. -/
theorem c2_upload_eligibility_witness :
    (standard_rename c2FailBag).1 = false ∧
    (standard_rename c2DirBag).1 = true ∧
    (standard_rename c2ContentBag).1 = false ∧
    (standard_rename c2ValidBag).1 = true :=
  ⟨((c2_upload_eligibility c2FailBag).1 rfl).1 rfl,
   ((c2_upload_eligibility c2DirBag).1 rfl).2.1 rfl,
   ((c2_upload_eligibility c2ContentBag).1 rfl).2.2 rfl,
   (c2_upload_eligibility c2ValidBag).2 rfl⟩

/-- C6: `is_rename_necessary` answers true for every filename whose
underscore-segment count is outside 3 and 4, and answers false whenever the
count is 3 or 4, segment 0 is a catalog vehicle type and segment 1 is one of
that type's known names, whatever the remaining segments hold. -/
theorem c6_naming_validator (fn : String) :
    ((splitChar '_' fn).length ≠ 3 ∧ (splitChar '_' fn).length ≠ 4 →
      is_rename_necessary fn = true) ∧
    (∀ sig names, ((splitChar '_' fn).length = 3 ∨ (splitChar '_' fn).length = 4) →
      vehicleLookup ((splitChar '_' fn).getD 0 "") = some (sig, names) →
      names.contains ((splitChar '_' fn).getD 1 "") = true →
      is_rename_necessary fn = false) := by
  constructor
  · intro h
    unfold is_rename_necessary
    rw [if_neg (by simp only [Bool.and_eq_true, decide_eq_true_eq]; omega)]
  · intro sig names hlen hlook hcont
    have hmem : (splitChar '_' fn).getD 1 "" ∈ names := by simpa using hcont
    unfold is_rename_necessary
    rw [if_pos (by simp only [Bool.and_eq_true, decide_eq_true_eq]; omega), hlook]
    simp only [Option.some.injEq]
    simpa using hmem

/-- Witness for C6: a two-segment name needs renaming; a four-segment name
with valid type and name segments and arbitrary trailing segments does not. -/
theorem c6_naming_validator_witness :
    is_rename_necessary "a_b" = true ∧
    is_rename_necessary "remus_casper_junk_junk2" = false :=
  ⟨(c6_naming_validator "a_b").1 (by decide),
   (c6_naming_validator "remus_casper_junk_junk2").2 "ros_remus/Status" remusNames
     (by decide) (by decide) (by decide)⟩

/-- C5: strategy order of `identify_source`.  If some path component is a
known vehicle name, the result has status 1 (DIRECTORY) and the source pair
is that type joined with that component, regardless of the message contents;
if no component matches but some catalog content signal occurs among the
message types, the result is that type joined with the `unknownname`
placeholder at status 2 (CONTENT); if neither matches, the result is
`unknowntype_unknownname` with status 0 (FAILED). -/
theorem c5_identify_source_strategy_order (b : BagFile) :
    (b.parts.any knownName = true →
      (identify_source b).2 = 1 ∧
      ∃ vi p, vi ∈ vehicle_info ∧ p ∈ b.parts ∧ vi.2.2.contains p = true ∧
        identify_source b = (vi.1 ++ "_" ++ p, 1)) ∧
    (b.parts.any knownName = false →
      (∃ vi, vi ∈ vehicle_info ∧ vi.2.1 ∈ b.msg_types) →
      ∃ vi, vi ∈ vehicle_info ∧ vi.2.1 ∈ b.msg_types ∧
        identify_source b = (vi.1 ++ "_unknownname", 2)) ∧
    (b.parts.any knownName = false →
      (∀ vi, vi ∈ vehicle_info → ¬ vi.2.1 ∈ b.msg_types) →
      identify_source b = ("unknowntype_unknownname", 0)) := by
  refine ⟨?_, ?_, ?_⟩
  · intro h
    obtain ⟨p, hp, hk, heq⟩ := foldl_dirStep_match b.parts ("", 0) h
    obtain ⟨vi, hvi, hc, hsf⟩ := sourceFor_spec p hk
    have hres : identify_source b = (vi.1 ++ "_" ++ p, 1) := by
      unfold identify_source
      rw [heq, hsf]
      simp
    exact ⟨by rw [hres], vi, p, hvi, hp, hc, hres⟩
  · intro h hex
    by_cases hbuoy : "ros_gwb/ScheduleStatus" ∈ b.msg_types
    · refine ⟨("buoy", "ros_gwb/ScheduleStatus", buoyNames), by simp [vehicle_info],
        hbuoy, ?_⟩
      unfold identify_source
      rw [foldl_dirStep_no_match b.parts ("", 0) h]
      simp [contentScan_eq, hbuoy]
    · by_cases hremus : "ros_remus/Status" ∈ b.msg_types
      · refine ⟨("remus", "ros_remus/Status", remusNames), by simp [vehicle_info],
          hremus, ?_⟩
        unfold identify_source
        rw [foldl_dirStep_no_match b.parts ("", 0) h]
        simp [contentScan_eq, hbuoy, hremus]
      · exfalso
        obtain ⟨vi, hvi, hmem⟩ := hex
        simp only [vehicle_info, List.mem_cons, List.not_mem_nil, or_false] at hvi
        rcases hvi with rfl | rfl
        · exact hremus hmem
        · exact hbuoy hmem
  · intro h hall
    have h1 : ¬ "ros_remus/Status" ∈ b.msg_types :=
      hall ("remus", "ros_remus/Status", remusNames) (by simp [vehicle_info])
    have h2 : ¬ "ros_gwb/ScheduleStatus" ∈ b.msg_types :=
      hall ("buoy", "ros_gwb/ScheduleStatus", buoyNames) (by simp [vehicle_info])
    unfold identify_source
    rw [foldl_dirStep_no_match b.parts ("", 0) h]
    simp [contentScan_eq, h1, h2]

/-- Witness for C5: the three strategies exercised at concrete bags; the
directory case carries a buoy content signal as well, and still resolves by
directory. -/
theorem c5_identify_source_witness :
    (identify_source c5DirBag).2 = 1 ∧
    (∃ vi p, vi ∈ vehicle_info ∧ p ∈ c5DirBag.parts ∧ vi.2.2.contains p = true ∧
      identify_source c5DirBag = (vi.1 ++ "_" ++ p, 1)) ∧
    (∃ vi, vi ∈ vehicle_info ∧ vi.2.1 ∈ c5ContentBag.msg_types ∧
      identify_source c5ContentBag = (vi.1 ++ "_unknownname", 2)) ∧
    identify_source c5FailBag = ("unknowntype_unknownname", 0) :=
  ⟨((c5_identify_source_strategy_order c5DirBag).1 (by decide)).1,
   ((c5_identify_source_strategy_order c5DirBag).1 (by decide)).2,
   (c5_identify_source_strategy_order c5ContentBag).2.1 (by decide)
     ⟨("buoy", "ros_gwb/ScheduleStatus", buoyNames), by simp [vehicle_info], by decide⟩,
   (c5_identify_source_strategy_order c5FailBag).2.2 (by decide) (by decide)⟩

/-- C7: if tag generation raises on a recording that reached the tagging
stage, the driver closes the backing store, publishes nothing, attempts no
upload, moves nothing, and the loop continues with the remaining recordings
instead of propagating the exception. -/
theorem c7_tagging_exception_closes_and_skips (b : BagFile) (e : String)
    (hguard : bagName b ≠ "uploaded")
    (helig : (standard_rename b).1 = true)
    (htag : generate_tags (standard_rename b).2 b = Except.error e) :
    processOne b =
      Except.ok ⟨true, is_rename_necessary (bagName b), true, true, false, false, false⟩ ∧
    ∀ rest tok, process_bags (Except.ok tok) (b :: rest) =
      (process_bags (Except.ok tok) rest).map
        (fun l => Step.mk true (is_rename_necessary (bagName b)) true true false false false :: l) := by
  have h1 := processOne_tagError b e hguard helig htag
  exact ⟨h1, fun rest tok => runBags_cons_ok b rest _ h1⟩

/-- Witness for C7: a remus bag with an empty status channel makes tagging
raise; the driver yields a closed, unuploaded, unmoved step and the batch
result is still a success list. -/
theorem c7_tagging_exception_witness :
    processOne c7Bag = Except.ok ⟨true, false, true, true, false, false, false⟩ ∧
    process_bags (Except.ok "t") [c7Bag] =
      Except.ok [⟨true, false, true, true, false, false, false⟩] := by
  have h := c7_tagging_exception_closes_and_skips c7Bag "max() arg is an empty sequence"
    (by decide) rfl rfl
  exact ⟨h.1, h.2 [] "t"⟩

/-- C3: refuted by the code.  A transport-upload exception is not caught by
the driver: a batch of two bags in which the first one's post raises aborts
with the error, and the second bag — processable on its own, as the first
conjunct shows — is never reached. -/
theorem c3_transport_exception_kills_batch :
    process_bags (Except.ok "t") [c3GoodBag] =
      Except.ok [⟨true, false, true, true, true, true, true⟩] ∧
    process_bags (Except.ok "t") [c3BadBag, c3GoodBag] = Except.error () :=
  ⟨rfl, rfl⟩

/-- C3 (amended): failure to obtain the token aborts the batch before any
recording is processed; a tagging exception is converted into a logged
skip and the driver proceeds with the remaining recordings; but an exception
raised by the transport upload propagates and terminates the batch. -/
theorem c3_amended_error_propagation (tok : String) (b : BagFile) (rest : List BagFile) :
    (∀ bags : List BagFile, process_bags (Except.error ()) bags = Except.error ()) ∧
    (∀ e, bagName b ≠ "uploaded" → (standard_rename b).1 = true →
      generate_tags (standard_rename b).2 b = Except.error e →
      process_bags (Except.ok tok) (b :: rest) =
        (process_bags (Except.ok tok) rest).map
          (fun l => Step.mk true (is_rename_necessary (bagName b)) true true false false false :: l)) ∧
    (∀ tags, bagName b ≠ "uploaded" → (standard_rename b).1 = true →
      generate_tags (standard_rename b).2 b = Except.ok tags →
      b.postResult = PostOutcome.raises →
      process_bags (Except.ok tok) (b :: rest) = Except.error ()) := by
  refine ⟨fun bags => rfl, ?_, ?_⟩
  · intro e hguard helig htag
    exact runBags_cons_ok b rest _ (processOne_tagError b e hguard helig htag)
  · intro tags hguard helig htag hpost
    exact runBags_cons_err b rest (processOne_postRaises b tags hguard helig htag hpost)

/-- Witness for C3 (amended): the three propagation behaviours at concrete
inputs — token failure aborts an empty batch, a tagging-error bag still
yields a successful batch, a post-raising bag aborts the batch. -/
theorem c3_amended_witness :
    process_bags (Except.error ()) [] = Except.error () ∧
    process_bags (Except.ok "t") [c3TagErrBag] =
      Except.ok [⟨true, false, true, true, false, false, false⟩] ∧
    process_bags (Except.ok "t") [c3BadBag] = Except.error () := by
  refine ⟨(c3_amended_error_propagation "t" c3TagErrBag []).1 [], ?_, ?_⟩
  · exact (c3_amended_error_propagation "t" c3TagErrBag []).2.1
      "max() arg is an empty sequence" (by decide) rfl rfl
  · exact (c3_amended_error_propagation "t" c3BadBag []).2.2 _ (by decide) rfl rfl rfl

/-- C9: whenever `generate_tags` succeeds, the `year` tag is the first four
characters of the `date/time` tag; and for a remus-named bag with at least
one status sample, the `max depth` tag is the maximum of all sampled depths
rounded to two decimal places (the code rounds each sample and then takes the
maximum, which coincides because rounding is monotone). -/
theorem c9_tag_generator_postconditions (fn : String) (b : BagFile)
    (tags : List (String × TagVal))
    (h : generate_tags fn b = Except.ok tags) :
    (∃ d, tags.lookup "date/time" = some (TagVal.str d) ∧
      tags.lookup "year" = some (TagVal.str (strTake d 4))) ∧
    ((splitChar '_' fn).headD "" = "remus" →
      ∀ m ms, b.statusMsgs = m :: ms →
        tags.lookup "max depth" =
          some (TagVal.ratv (pyRound2 ((ms.map StatusMsg.depth).foldl max m.depth)))) := by
  unfold generate_tags at h
  split at h
  · simp at h
  · rename_i name hidx
    by_cases hveh : (splitChar '_' fn).headD "" = "remus"
    · rw [if_pos (by simpa using hveh)] at h
      cases hs : b.statusMsgs with
      | nil =>
        rw [hs] at h
        simp [remusTags, pyMax] at h
      | cons m ms =>
        rw [hs] at h
        simp only [remusTags, List.map_cons, pyMax, List.head?_cons, Except.ok.injEq] at h
        subst h
        have hmax : (ms.map (fun x => pyRound2 x.depth)).foldl max (pyRound2 m.depth) =
            pyRound2 ((ms.map StatusMsg.depth).foldl max m.depth) := by
          calc (ms.map (fun x => pyRound2 x.depth)).foldl max (pyRound2 m.depth)
              = ((ms.map StatusMsg.depth).map pyRound2).foldl max (pyRound2 m.depth) := by
                rw [List.map_map]
                rfl
            _ = pyRound2 ((ms.map StatusMsg.depth).foldl max m.depth) :=
                foldl_max_map_pyRound2 _ _
        refine ⟨⟨identify_date b.startLocal, rfl, rfl⟩, ?_⟩
        intro _ m2 ms2 hs2
        injection hs2 with h1 h2
        subst h1
        subst h2
        have hv : List.lookup "max depth"
            (universalTags ((splitChar '_' fn).headD "") name (identify_date b.startLocal) ++
              ([("mission state", TagVal.boolv m.in_mission)] ++
               [("max depth",
                 TagVal.ratv ((ms.map (fun x => pyRound2 x.depth)).foldl max (pyRound2 m.depth))),
                ("mission modes",
                 TagVal.modes (m.mission_mode :: ms.map (fun x => x.mission_mode)))])) =
            some (TagVal.ratv
              ((ms.map (fun x => pyRound2 x.depth)).foldl max (pyRound2 m.depth))) := rfl
        rw [hv, hmax]
    · rw [if_neg (by simpa using hveh)] at h
      simp only [Except.ok.injEq] at h
      subst h
      exact ⟨⟨identify_date b.startLocal, rfl, rfl⟩, fun h2 => absurd h2 hveh⟩

/-- Witness for C9: the tag dictionary of a concrete remus bag with sampled
depths 1.25 and 0.5; its `year` is the prefix of its `date/time` and its
`max depth` is the rounded maximum, which evaluates to 1.25. -/
theorem c9_tag_generator_witness :
    (∃ d, List.lookup "date/time" c9TagList = some (TagVal.str d) ∧
      List.lookup "year" c9TagList = some (TagVal.str (strTake d 4))) ∧
    List.lookup "max depth" c9TagList =
      some (TagVal.ratv (pyRound2
        ((([⟨true, 1/2, 7⟩] : List StatusMsg).map StatusMsg.depth).foldl max (5/4)))) ∧
    max (pyRound2 (5/4)) (pyRound2 (1/2)) = (5/4 : ℚ) := by
  have h := c9_tag_generator_postconditions "remus_shadow_t.bag" c9Bag c9TagList rfl
  exact ⟨h.1, h.2 rfl ⟨true, 5/4, 7⟩ [⟨true, 1/2, 7⟩] rfl,
    by norm_num [pyRound2, roundHalfEven, max_def]⟩

/-- C10: a bag whose filename's first segment is `remus` but whose status
channel holds zero messages makes `generate_tags` raise the empty-maximum
error; under the driver this closes the store and skips the bag without
publishing tags, attempting an upload, or moving the file. -/
theorem c10_empty_status_remus_raises (b : BagFile) (n : String) (rest : List String)
    (hguard : bagName b ≠ "uploaded")
    (hsplit : splitChar '_' (bagName b) = "remus" :: n :: rest)
    (hvalid : is_rename_necessary (bagName b) = false)
    (hempty : b.statusMsgs = []) :
    generate_tags (bagName b) b = Except.error "max() arg is an empty sequence" ∧
    processOne b = Except.ok ⟨true, false, true, true, false, false, false⟩ := by
  have hsr : standard_rename b = (true, bagName b) := by
    unfold standard_rename
    rw [if_neg (by simp [hvalid])]
  have htag : generate_tags (bagName b) b = Except.error "max() arg is an empty sequence" := by
    unfold generate_tags
    rw [hsplit]
    simp [hempty, remusTags, pyMax]
  refine ⟨htag, ?_⟩
  have h1 := processOne_tagError b "max() arg is an empty sequence" hguard
    (by rw [hsr]) (by rw [hsr]; exact htag)
  rw [hvalid] at h1
  exact h1

/-- Witness for C10: the empty-status remus bag `c10Bag` raises in tagging
and is closed and skipped by the driver. -/
theorem c10_empty_status_remus_witness :
    generate_tags (bagName c10Bag) c10Bag = Except.error "max() arg is an empty sequence" ∧
    processOne c10Bag = Except.ok ⟨true, false, true, true, false, false, false⟩ :=
  c10_empty_status_remus_raises c10Bag "bullwinkle" ["e.bag"] (by decide) rfl rfl rfl

end BagDB
